import Mathlib

/-!
Verification of the physics-trace recording and compositing pipeline of
`src/src/PhysicsScene.tsx` (a Remotion scene driving the Matter.js rigid-body
engine), as a shallow embedding in Lean.

The physics engine itself is an external collaborator: it is modelled as an
abstract `EngineModel` (a deterministic state type with a step function, a
contact-notification query, and body/ball queries), exactly the interface the
scene consumes.  Everything the scene itself does — the per-frame fixed-step
loop with two half-steps, the collision de-duplication handler, the snapshot
capture, the clamped frame lookup, the camera offset, the bounce-sound
synthesis — is translated directly from the source.

Numbers: JavaScript numbers are embedded as `ℚ` where only field arithmetic
and comparisons occur, and as `ℝ` for the audio synthesis (which uses
`exp`/`sin`).
-/

/-- `CollisionEvent` (PhysicsScene.tsx lines 6–10):
`{ frame: number; platformIndex: number; velocity: number }`.
`frame` is a loop index `0 ≤ f < durationInFrames` and `platformIndex` a
slope-segment index, both naturals. -/
structure CollisionEvent where
  frame : ℕ
  platformIndex : ℕ
  velocity : ℚ
deriving DecidableEq, Repr

/-- One recorded body of a snapshot (PhysicsScene.tsx lines 185–195):
world-space vertex ring, fill style, and the optional `isBall` tag. -/
structure SnapBody where
  vertices : List (ℚ × ℚ)
  fillStyle : String
  isBall : Option Bool
deriving DecidableEq, Repr

/-- `FrameSnapshot` (PhysicsScene.tsx lines 12–21). -/
structure FrameSnapshot where
  bodies : List SnapBody
  collisions : List CollisionEvent
  ballY : ℚ
  virtualBallY : ℚ
deriving DecidableEq, Repr

/-- One side of a contact pair as seen by the `collisionStart` handler
(PhysicsScene.tsx lines 138–145): the optional `isBall` and `platformIndex`
tags and the body's current velocity vector.  A JS `undefined` tag is `none`
(`isBall` truthiness collapses `undefined` to `false`). -/
structure ContactBody where
  isBall : Bool
  platformIndex : Option ℕ
  vel : ℚ × ℚ
deriving DecidableEq, Repr

/-- A contact pair delivered by one `collisionStart` notification. -/
structure ContactPair where
  bodyA : ContactBody
  bodyB : ContactBody
deriving DecidableEq, Repr

/-- Classification of a contact pair (PhysicsScene.tsx lines 147–156): the
pair is relevant when one side is the ball and the other carries a platform
index; returns the ball body and the platform's index. -/
def classify (pr : ContactPair) : Option (ContactBody × ℕ) :=
  match pr.bodyA.isBall, pr.bodyB.platformIndex with
  | true, some i => some (pr.bodyA, i)
  | _, _ =>
    match pr.bodyB.isBall, pr.bodyA.platformIndex with
    | true, some i => some (pr.bodyB, i)
    | _, _ => none

/-- The mutable state captured by the `collisionStart` closure
(PhysicsScene.tsx lines 133–134): the de-duplication map `collisionMap`
(modelled as the list of keys present; the stored value `1` carries no
information) and the accumulated `collisions` array.  The JS key is the
string `frame + "-" + platformIndex`; since both components are decimal
numerals the encoding is injective, so the key is modelled as the pair. -/
structure HandlerState where
  keys : List (ℕ × ℕ)
  events : List CollisionEvent
deriving DecidableEq, Repr

/-- The handler state at engine creation: empty map, no events. -/
def emptyHandlerState : HandlerState := ⟨[], []⟩

/-- Processing of one contact pair by the `collisionStart` handler
(PhysicsScene.tsx lines 158–169): if the pair is a ball/platform contact and
its `(currentFrame, platformIndex)` key is unseen, record the key and push an
event whose velocity is `Math.abs(ballBody.velocity.y)`; otherwise do
nothing. -/
def processPair (currentFrame : ℕ) (pr : ContactPair) (h : HandlerState) :
    HandlerState :=
  match classify pr with
  | none => h
  | some (ballBody, pidx) =>
    if (currentFrame, pidx) ∈ h.keys then h
    else
      { keys := (currentFrame, pidx) :: h.keys,
        events := h.events ++
          [⟨currentFrame, pidx, |ballBody.vel.2|⟩] }

/-- A sequence of contact notifications, each tagged with the `currentFrame`
in force when it arrived, folded through the handler in arrival order. -/
def processSeq (l : List (ℕ × ContactPair)) (h : HandlerState) : HandlerState :=
  l.foldl (fun h fp => processPair fp.1 fp.2 h) h

/-- All notifications of one `Matter.Engine.update` call, delivered under a
single `currentFrame`. -/
def processStep (currentFrame : ℕ) (prs : List ContactPair) (h : HandlerState) :
    HandlerState :=
  prs.foldl (fun h pr => processPair currentFrame pr h) h

/-- The Matter.js engine boundary as consumed by the scene: a deterministic
state, the initial world built by the scene-builder code for the given scene
width (PhysicsScene.tsx lines 97–131; the world geometry depends on `width`
only), `Matter.Engine.update` as a function of the time delta, the contact
pairs whose `collisionStart` notifications fire during such an update, and
the body/ball queries used when capturing a snapshot. -/
structure EngineModel where
  State : Type
  init : ℚ → State
  step : ℚ → State → State
  contacts : ℚ → State → List ContactPair
  capture : State → List SnapBody
  ballPos : State → ℚ × ℚ

/-- The two half-steps of one frame (PhysicsScene.tsx lines 180–181):
`Matter.Engine.update(engine, dt/2)` twice. -/
def twoHalfSteps (E : EngineModel) (dt : ℚ) (s : E.State) : E.State :=
  E.step (dt / 2) (E.step (dt / 2) s)

/-- The snapshot captured after a frame's updates
(PhysicsScene.tsx lines 183–202): the body list, an empty per-snapshot
collision list, `ballY = ball.position.y` and
`virtualBallY = ball.position.x`. -/
def mkSnapshot (E : EngineModel) (s : E.State) : FrameSnapshot :=
  { bodies := E.capture s,
    collisions := [],
    ballY := (E.ballPos s).2,
    virtualBallY := (E.ballPos s).1 }

/-- One iteration of the frame loop body for frame index `f`
(PhysicsScene.tsx lines 177–181): two engine half-updates, each of whose
contact notifications the handler processes under `currentFrame = f`. -/
def runFrame (E : EngineModel) (dt : ℚ) (f : ℕ)
    (sh : E.State × HandlerState) : E.State × HandlerState :=
  let h1 := processStep f (E.contacts (dt / 2) sh.1) sh.2
  let s1 := E.step (dt / 2) sh.1
  let h2 := processStep f (E.contacts (dt / 2) s1) h1
  (E.step (dt / 2) s1, h2)

/-- The frame loop (PhysicsScene.tsx lines 177–203): `n` remaining frames
starting at frame index `f`, threading engine and handler state, snapshotting
after each frame's two half-updates. -/
def genFrames (E : EngineModel) (dt : ℚ) :
    ℕ → ℕ → E.State × HandlerState → List FrameSnapshot × HandlerState
  | 0, _, sh => ([], sh.2)
  | n + 1, f, sh =>
    let sh' := runFrame E dt f sh
    let rest := genFrames E dt n (f + 1) sh'
    (mkSnapshot E sh'.1 :: rest.1, rest.2)

/-- The whole `useMemo` trace generation (PhysicsScene.tsx lines 96–206):
build the world, set `dt = 1000 / fps`, run the frame loop for
`durationInFrames` iterations from frame 0, and return
`{ frameSnapshots, allCollisions }`.  `durationInFrames` is an integer; the
JS `for` loop runs `max durationInFrames 0` times, i.e. `toNat` of it.
`height` is received from the video config but does not influence world
construction or the loop.  No validation of `width`, `height`, `fps` or
`durationInFrames` is performed anywhere in the source. -/
def generateTrace (E : EngineModel) (width height fps : ℚ)
    (durationInFrames : ℤ) : List FrameSnapshot × List CollisionEvent :=
  let _ := height
  let dt := 1000 / fps
  let res := genFrames E dt durationInFrames.toNat 0
    (E.init width, emptyHandlerState)
  (res.1, res.2.events)

/-- The engine state after `k` whole frames of stepping (each frame two
half-steps) from the initial world. -/
def engineStateAfter (E : EngineModel) (dt width : ℚ) (k : ℕ) : E.State :=
  (twoHalfSteps E dt)^[k] (E.init width)

/-- The compositor's snapshot lookup (PhysicsScene.tsx line 242):
`frameSnapshots[Math.min(frame, frameSnapshots.length - 1)]`, `undefined`
(`none`) when the index is still out of range. -/
def lookupSnapshot (frameSnapshots : List FrameSnapshot) (frame : ℕ) :
    Option FrameSnapshot :=
  frameSnapshots[Nat.min frame (frameSnapshots.length - 1)]?

/-- The camera translation offset (PhysicsScene.tsx lines 245–246):
`cameraX = snapshot.virtualBallY - width / 2`,
`cameraY = snapshot.ballY - height * 0.4`. -/
def cameraOffset (snap : FrameSnapshot) (width height : ℚ) : ℚ × ℚ :=
  (snap.virtualBallY - width / 2, snap.ballY - height * 0.4)

/-- The transcendental float primitives `Math.exp`, `Math.sin`, `Math.PI`
consumed by the sound synthesis.  They are foreign to the program under
verification and kept abstract. -/
structure AudioPrims where
  exp : ℚ → ℚ
  sin : ℚ → ℚ
  pi : ℚ

/-- `samples = Math.floor(duration * sampleRate)`
(PhysicsScene.tsx line 76). -/
def sampleCount (duration sampleRate : ℚ) : ℕ :=
  ⌊duration * sampleRate⌋.toNat

/-- `frequency = 200 + velocity * 50` (PhysicsScene.tsx line 78). -/
def bounceFrequency (velocity : ℚ) : ℚ :=
  200 + velocity * 50

/-- The envelope of sample `i`: `Math.exp(-8 * t)` with `t = i / sampleRate`
(PhysicsScene.tsx lines 81–82); a function of time only, mentioning no
velocity. -/
def bounceEnvelope (P : AudioPrims) (sampleRate : ℚ) (i : ℕ) : ℚ :=
  P.exp (-8 * ((i : ℚ) / sampleRate))

/-- The oscillating factor of sample `i`:
`Math.sin(2 * Math.PI * frequency * t * (1 - t * 2))`
(PhysicsScene.tsx line 83). -/
def bounceWave (P : AudioPrims) (velocity sampleRate : ℚ) (i : ℕ) : ℚ :=
  P.sin (2 * P.pi * bounceFrequency velocity * ((i : ℚ) / sampleRate) *
    (1 - ((i : ℚ) / sampleRate) * 2))

/-- `_synthesizeBounceSound` (PhysicsScene.tsx lines 71–88): a buffer of
`sampleCount` samples, each `envelope * sound * 0.4`; indices past the end
hold the `Float32Array` default `0`. -/
def synthesizeBounceSound (P : AudioPrims) (velocity duration sampleRate : ℚ) :
    ℕ → ℚ :=
  fun i =>
    if i < sampleCount duration sampleRate then
      bounceEnvelope P sampleRate i * bounceWave P velocity sampleRate i * 0.4
    else 0

/-- A tiny concrete engine model used to evaluate the pipeline on closed
inputs: the state is a counter bumped by every half-update, the ball sits at
`(s, s)`, no bodies are captured and no contacts fire. -/
def demoEngine : EngineModel :=
  { State := ℕ,
    init := fun _ => 0,
    step := fun _ s => s + 1,
    contacts := fun _ _ => [],
    capture := fun _ => [],
    ballPos := fun s => ((s : ℚ), (s : ℚ)) }

/-- The ball side of a concrete contact notification. -/
def demoBall : ContactBody := ⟨true, none, (5, -3)⟩

/-- The platform side of a concrete contact notification, tagged with
platform index 7. -/
def demoPlatform : ContactBody := ⟨false, some 7, (0, 0)⟩

/-- A concrete ball/platform contact pair. -/
def demoPair : ContactPair := ⟨demoBall, demoPlatform⟩

/-- Two notifications for the same (ball, platform-index) pair arriving
within the same step (frame 3). -/
def demoNotifications : List (ℕ × ContactPair) := [(3, demoPair), (3, demoPair)]

/-- Number of recorded events carrying de-duplication key
`(frame, platformIndex)`. -/
def countKey (es : List CollisionEvent) (fr p : ℕ) : ℕ :=
  es.countP fun e => e.frame == fr && e.platformIndex == p

/-- The handler closure state invariant tying the de-duplication map to the
event list: every key occurs at most once among the recorded events, and a
key is in the map exactly when an event for it has been recorded. -/
def HandlerInv (h : HandlerState) : Prop :=
  ∀ fr p, countKey h.events fr p ≤ 1 ∧
    ((fr, p) ∈ h.keys ↔ countKey h.events fr p = 1)

/-- The decided outcome of a snapshot.  `FrameSnapshot`
(PhysicsScene.tsx lines 12–21) declares no outcome field and the scene
evaluates no terminal condition anywhere, so the decided outcome of every
snapshot is the undecided value `none`. -/
def snapshotOutcome (_ : FrameSnapshot) : Option Unit := none

/-- A concrete two-snapshot trace for closed evaluations of the lookup. -/
def demoTrace : List FrameSnapshot := [⟨[], [], 0, 0⟩, ⟨[], [], 1, 1⟩]

/-- Concrete stand-ins for the transcendental primitives, for closed
evaluations of the synthesis. -/
def demoPrims : AudioPrims := ⟨id, id, 3⟩

lemma countKey_append_singleton (es : List CollisionEvent) (e : CollisionEvent)
    (fr p : ℕ) :
    countKey (es ++ [e]) fr p =
      countKey es fr p +
        (if e.frame = fr ∧ e.platformIndex = p then 1 else 0) := by
  by_cases h1 : e.frame = fr <;> by_cases h2 : e.platformIndex = p <;>
    simp [countKey, List.countP_append, List.countP_cons, h1, h2]

lemma handlerInv_empty : HandlerInv emptyHandlerState := by
  intro fr p
  simp [countKey, emptyHandlerState]

lemma handlerInv_processPair (f : ℕ) (pr : ContactPair) (h : HandlerState)
    (hI : HandlerInv h) : HandlerInv (processPair f pr h) := by
  unfold processPair
  cases hc : classify pr with
  | none => exact hI
  | some bp =>
    obtain ⟨b, p⟩ := bp
    by_cases hk : (f, p) ∈ h.keys
    · simpa [hk] using hI
    · simp only [hk, if_false]
      intro fr q
      by_cases hfq : f = fr ∧ p = q
      · obtain ⟨rfl, rfl⟩ := hfq
        have h0 : countKey h.events f p = 0 := by
          rcases Nat.lt_or_ge (countKey h.events f p) 1 with hlt | hge
          · omega
          · exfalso
            exact hk (((hI f p).2).mpr (Nat.le_antisymm (hI f p).1 hge))
        constructor
        · simp [countKey_append_singleton, h0]
        · simp [countKey_append_singleton, h0]
      · have hne : ¬(f = fr ∧ p = q) := hfq
        have hcnt : countKey (h.events ++ [⟨f, p, |b.vel.2|⟩]) fr q =
            countKey h.events fr q := by
          rw [countKey_append_singleton]
          simp only [CollisionEvent.mk.injEq]
          have : ¬(f = fr ∧ p = q) := hne
          simp [show ¬((⟨f, p, |b.vel.2|⟩ : CollisionEvent).frame = fr ∧
              (⟨f, p, |b.vel.2|⟩ : CollisionEvent).platformIndex = q) from hne]
        constructor
        · rw [hcnt]; exact (hI fr q).1
        · rw [hcnt]
          constructor
          · intro hmem
            rcases List.mem_cons.mp hmem with heq | hmem2
            · rw [Prod.mk.injEq] at heq
              exact absurd ⟨heq.1.symm, heq.2.symm⟩ hne
            · exact ((hI fr q).2).mp hmem2
          · intro hcq
            exact List.mem_cons_of_mem _ (((hI fr q).2).mpr hcq)

lemma countKey_le_processPair (f : ℕ) (pr : ContactPair) (h : HandlerState)
    (fr p : ℕ) :
    countKey h.events fr p ≤ countKey (processPair f pr h).events fr p := by
  unfold processPair
  cases classify pr with
  | none => exact le_rfl
  | some bp =>
    obtain ⟨b, q⟩ := bp
    by_cases hk : (f, q) ∈ h.keys
    · simp [hk]
    · simp only [hk, if_false]
      rw [countKey_append_singleton]
      exact Nat.le_add_right _ _

lemma countKey_le_processSeq (l : List (ℕ × ContactPair)) (h : HandlerState)
    (fr p : ℕ) :
    countKey h.events fr p ≤ countKey (processSeq l h).events fr p := by
  induction l generalizing h with
  | nil => exact le_rfl
  | cons x l ih =>
    exact le_trans (countKey_le_processPair x.1 x.2 h fr p)
      (ih (processPair x.1 x.2 h))

lemma handlerInv_processSeq (l : List (ℕ × ContactPair)) (h : HandlerState)
    (hI : HandlerInv h) : HandlerInv (processSeq l h) := by
  induction l generalizing h with
  | nil => exact hI
  | cons x l ih =>
    exact ih (processPair x.1 x.2 h) (handlerInv_processPair x.1 x.2 h hI)

lemma countKey_processPair_hit (f : ℕ) (pr : ContactPair) (b : ContactBody)
    (p : ℕ) (h : HandlerState) (hI : HandlerInv h)
    (hc : classify pr = some (b, p)) :
    countKey (processPair f pr h).events f p = 1 := by
  unfold processPair
  rw [hc]
  by_cases hk : (f, p) ∈ h.keys
  · simp only [hk, if_true]
    exact ((hI f p).2).mp hk
  · simp only [hk, if_false]
    have h0 : countKey h.events f p = 0 := by
      rcases Nat.lt_or_ge (countKey h.events f p) 1 with hlt | hge
      · omega
      · exact absurd (((hI f p).2).mpr (Nat.le_antisymm (hI f p).1 hge)) hk
    rw [countKey_append_singleton]
    simp [h0]

lemma countKey_processSeq_of_mem (l : List (ℕ × ContactPair))
    (h : HandlerState) (hI : HandlerInv h) (fr p : ℕ) (b : ContactBody)
    (pr : ContactPair) (hmem : (fr, pr) ∈ l)
    (hc : classify pr = some (b, p)) :
    countKey (processSeq l h).events fr p = 1 := by
  induction l generalizing h with
  | nil => cases hmem
  | cons x l ih =>
    rcases List.mem_cons.mp hmem with heq | hmem2
    · subst heq
      have h1 : countKey (processPair fr pr h).events fr p = 1 :=
        countKey_processPair_hit fr pr b p h hI hc
      have hle : countKey (processSeq l (processPair fr pr h)).events fr p ≤ 1 :=
        ((handlerInv_processSeq l _ (handlerInv_processPair fr pr h hI)) fr p).1
      have hge := countKey_le_processSeq l (processPair fr pr h) fr p
      rw [h1] at hge
      exact Nat.le_antisymm hle hge
    · exact ih (processPair x.1 x.2 h) (handlerInv_processPair x.1 x.2 h hI)
        hmem2

lemma mem_processPair_events (f : ℕ) (pr : ContactPair) (h : HandlerState)
    (e : CollisionEvent) (he : e ∈ (processPair f pr h).events) :
    e ∈ h.events ∨
      ∃ b p, classify pr = some (b, p) ∧ e = ⟨f, p, |b.vel.2|⟩ := by
  unfold processPair at he
  split at he
  · exact Or.inl he
  · rename_i b p hc
    split at he
    · exact Or.inl he
    · rcases List.mem_append.mp he with h1 | h2
      · exact Or.inl h1
      · exact Or.inr ⟨b, p, hc, List.mem_singleton.mp h2⟩

lemma mem_processSeq_events (l : List (ℕ × ContactPair)) (h : HandlerState)
    (e : CollisionEvent) (he : e ∈ (processSeq l h).events) :
    e ∈ h.events ∨
      ∃ fp ∈ l, ∃ b p, classify fp.2 = some (b, p) ∧
        e = ⟨fp.1, p, |b.vel.2|⟩ := by
  induction l generalizing h with
  | nil => exact Or.inl he
  | cons x l ih =>
    rcases ih (processPair x.1 x.2 h) he with h1 | h2
    · rcases mem_processPair_events x.1 x.2 h e h1 with h3 | h4
      · exact Or.inl h3
      · exact Or.inr ⟨x, List.mem_cons_self x l, h4⟩
    · obtain ⟨fp, hfp, rest⟩ := h2
      exact Or.inr ⟨fp, List.mem_cons_of_mem x hfp, rest⟩

lemma runFrame_fst (E : EngineModel) (dt : ℚ) (f : ℕ)
    (sh : E.State × HandlerState) :
    (runFrame E dt f sh).1 = twoHalfSteps E dt sh.1 := rfl

lemma genFrames_fst_length (E : EngineModel) (dt : ℚ) (n f : ℕ)
    (sh : E.State × HandlerState) :
    (genFrames E dt n f sh).1.length = n := by
  induction n generalizing f sh with
  | zero => rfl
  | succ n ih => simp [genFrames, ih]

lemma genFrames_fst_getElem (E : EngineModel) (dt : ℚ) (n f : ℕ)
    (sh : E.State × HandlerState) (i : ℕ) (hi : i < n) :
    (genFrames E dt n f sh).1[i]? =
      some (mkSnapshot E ((twoHalfSteps E dt)^[i + 1] sh.1)) := by
  induction n generalizing f sh i with
  | zero => omega
  | succ n ih =>
    cases i with
    | zero =>
      show (mkSnapshot E (runFrame E dt f sh).1 :: _)[0]? = _
      rw [runFrame_fst]
      simp [Function.iterate_one]
    | succ i =>
      have hi2 : i < n := Nat.lt_of_succ_lt_succ hi
      show (mkSnapshot E (runFrame E dt f sh).1 ::
          (genFrames E dt n (f + 1) (runFrame E dt f sh)).1)[i + 1]? = _
      rw [List.getElem?_cons_succ, ih (f + 1) (runFrame E dt f sh) i hi2,
        runFrame_fst]
      rw [show (i + 1) + 1 = i + 2 from rfl,
        Function.iterate_succ_apply (twoHalfSteps E dt) (i + 1) sh.1]

lemma collisions_of_mem_genFrames (E : EngineModel) (dt : ℚ) (n f : ℕ)
    (sh : E.State × HandlerState) (s : FrameSnapshot)
    (hs : s ∈ (genFrames E dt n f sh).1) : s.collisions = [] := by
  induction n generalizing f sh with
  | zero => cases hs
  | succ n ih =>
    rcases List.mem_cons.mp hs with heq | hmem
    · subst heq; rfl
    · exact ih (f + 1) (runFrame E dt f sh) hmem

/-- C1: the claim as stated — `Trace[i]` is the physics state after exactly
`i` fixed-size time steps — fails at index 0: the loop advances the engine
before capturing, so `Trace[0]` is the state after one full step (two
half-steps), not the initial state.  Counterexample at a concrete engine
model, `width = height = 100`, `fps = 30`, `durationInFrames = 1`. -/
theorem trace_snapshot_at_index_zero_not_initial_state :
    (generateTrace demoEngine 100 100 30 1).1[0]? ≠
      some (mkSnapshot demoEngine
        (engineStateAfter demoEngine (1000 / 30) 100 0)) := by
  decide

/-- C1 (amended): the trace is an ordered sequence of exactly
`durationInFrames` snapshots, and for every index `i`, `Trace[i]` is the
physics state after exactly `i + 1` fixed-size time steps (each step the
fixed delta `1000 / fps`, applied as two half-steps belonging to the same
frame) have been applied from the initial configuration. -/
theorem trace_snapshot_is_state_after_succ_steps (E : EngineModel)
    (width height fps : ℚ) (durationInFrames : ℤ) :
    (generateTrace E width height fps durationInFrames).1.length =
        durationInFrames.toNat ∧
      ∀ i, i < durationInFrames.toNat →
        (generateTrace E width height fps durationInFrames).1[i]? =
          some (mkSnapshot E
            (engineStateAfter E (1000 / fps) width (i + 1))) := by
  constructor
  · exact genFrames_fst_length E (1000 / fps) durationInFrames.toNat 0
      (E.init width, emptyHandlerState)
  · intro i hi
    exact genFrames_fst_getElem E (1000 / fps) durationInFrames.toNat 0
      (E.init width, emptyHandlerState) i hi

/-- Witness for the amended C1 at a concrete engine model and
`durationInFrames = 1`, index 0. -/
theorem trace_snapshot_is_state_after_succ_steps_witness :
    (0 : ℕ) < (1 : ℤ).toNat ∧
      (generateTrace demoEngine 100 100 30 1).1[0]? =
        some (mkSnapshot demoEngine
          (engineStateAfter demoEngine (1000 / 30) 100 1)) :=
  ⟨by decide,
    (trace_snapshot_is_state_after_succ_steps demoEngine 100 100 30 1).2 0
      (by decide)⟩

/-- C2: for fixed engine, dimensions, fps and duration, two independent runs
of trace generation produce identical traces snapshot-for-snapshot (and the
same event list). -/
theorem trace_generation_deterministic (E : EngineModel)
    (width height fps : ℚ) (durationInFrames : ℤ)
    (r1 r2 : List FrameSnapshot × List CollisionEvent)
    (h1 : r1 = generateTrace E width height fps durationInFrames)
    (h2 : r2 = generateTrace E width height fps durationInFrames) :
    r1 = r2 :=
  h1.trans h2.symm

/-- Witness for C2: two runs at a concrete configuration coincide. -/
theorem trace_generation_deterministic_witness :
    generateTrace demoEngine 100 100 30 2 =
      generateTrace demoEngine 100 100 30 2 :=
  trace_generation_deterministic demoEngine 100 100 30 2 _ _ rfl rfl

/-- C3: for a non-empty trace of length `totalFrameCount`, the compositor's
lookup at `totalFrameCount + k` returns the same snapshot as the lookup at
`totalFrameCount - 1`, and the out-of-range request still finds a snapshot
(it is clamped, never an error). -/
theorem lookup_clamps_overrun_to_last (frameSnapshots : List FrameSnapshot)
    (totalFrameCount k : ℕ)
    (hlen : frameSnapshots.length = totalFrameCount)
    (hpos : 0 < totalFrameCount) :
    lookupSnapshot frameSnapshots (totalFrameCount + k) =
        lookupSnapshot frameSnapshots (totalFrameCount - 1) ∧
      (lookupSnapshot frameSnapshots (totalFrameCount + k)).isSome = true := by
  subst hlen
  unfold lookupSnapshot
  have hmin1 : Nat.min (frameSnapshots.length + k)
      (frameSnapshots.length - 1) = frameSnapshots.length - 1 :=
    Nat.min_eq_right (by omega)
  have hmin2 : Nat.min (frameSnapshots.length - 1)
      (frameSnapshots.length - 1) = frameSnapshots.length - 1 :=
    Nat.min_self _
  rw [hmin1, hmin2]
  refine ⟨rfl, ?_⟩
  rw [List.getElem?_eq_getElem (by omega)]
  rfl

/-- Witness for C3 on a concrete two-snapshot trace with `k = 3`. -/
theorem lookup_clamps_overrun_to_last_witness :
    lookupSnapshot demoTrace (2 + 3) = lookupSnapshot demoTrace (2 - 1) ∧
      (lookupSnapshot demoTrace (2 + 3)).isSome = true :=
  lookup_clamps_overrun_to_last demoTrace 2 3 rfl (by decide)

/-- C4: the recorded event list contains at most one event per
(step index, platform index) key, and a step that delivers at least one
ball/platform notification for a key yields exactly one event for it — a
second notification for the same key is discarded by the `collisionMap`
de-duplication. -/
theorem collision_events_deduplicated (l : List (ℕ × ContactPair))
    (fr p : ℕ) :
    countKey (processSeq l emptyHandlerState).events fr p ≤ 1 ∧
      ∀ b pr, (fr, pr) ∈ l → classify pr = some (b, p) →
        countKey (processSeq l emptyHandlerState).events fr p = 1 := by
  constructor
  · exact ((handlerInv_processSeq l emptyHandlerState handlerInv_empty)
      fr p).1
  · intro b pr hmem hc
    exact countKey_processSeq_of_mem l emptyHandlerState handlerInv_empty
      fr p b pr hmem hc

/-- Witness for C4: two notifications for the same (ball, platform 7) pair
within step 3 produce exactly one recorded event for key `(3, 7)`. -/
theorem collision_events_deduplicated_witness :
    countKey (processSeq demoNotifications emptyHandlerState).events 3 7 = 1 :=
  (collision_events_deduplicated demoNotifications 3 7).2 demoBall demoPair
    (by decide) (by decide)

/-- C5: every recorded collision event originates from some notification of
the sequence, carries that notification's frame and platform index, and its
velocity is the absolute value of the vertical (y) velocity component of the
ball body at the moment of contact. -/
theorem collision_velocity_is_abs_vertical (l : List (ℕ × ContactPair))
    (e : CollisionEvent)
    (he : e ∈ (processSeq l emptyHandlerState).events) :
    ∃ fp ∈ l, ∃ b p, classify fp.2 = some (b, p) ∧
      e = ⟨fp.1, p, |b.vel.2|⟩ := by
  rcases mem_processSeq_events l emptyHandlerState e he with h1 | h2
  · cases h1
  · exact h2

/-- Witness for C5: the event recorded for the concrete notification list
has velocity `|(-3)| = 3`, the ball's absolute vertical velocity. -/
theorem collision_velocity_is_abs_vertical_witness :
    ∃ fp ∈ demoNotifications, ∃ b p, classify fp.2 = some (b, p) ∧
      (⟨3, 7, 3⟩ : CollisionEvent) = ⟨fp.1, p, |b.vel.2|⟩ :=
  collision_velocity_is_abs_vertical demoNotifications ⟨3, 7, 3⟩ (by decide)

/-- C6: the decided outcome is monotone along the trace: for `i < j`, either
snapshot `i` is still undecided or snapshot `j` carries the same outcome.
In this scene `FrameSnapshot` has no outcome field at all, so every
snapshot's outcome is `none` and the invariant holds. -/
theorem outcome_monotone (E : EngineModel) (width height fps : ℚ)
    (durationInFrames : ℤ) (i j : ℕ) (si sj : FrameSnapshot)
    (_hi : (generateTrace E width height fps durationInFrames).1[i]? =
      some si)
    (_hj : (generateTrace E width height fps durationInFrames).1[j]? =
      some sj)
    (_hij : i < j) :
    snapshotOutcome si = none ∨ snapshotOutcome sj = snapshotOutcome si :=
  Or.inl rfl

/-- Witness for C6 on a concrete two-frame trace, indices 0 < 1. -/
theorem outcome_monotone_witness :
    snapshotOutcome ⟨[], [], 2, 2⟩ = none ∨
      snapshotOutcome ⟨[], [], 4, 4⟩ = snapshotOutcome ⟨[], [], 2, 2⟩ :=
  outcome_monotone demoEngine 100 100 30 2 0 1 ⟨[], [], 2, 2⟩ ⟨[], [], 4, 4⟩
    (by decide) (by decide) (by decide)

/-- C7: the claim as stated — a malformed configuration (zero or negative
dimensions, fps or duration) fails fast and no snapshots are generated —
fails: the source validates nothing, and with `width = 0`, `height = 0`
(zero dimensions) a snapshot is still generated. -/
theorem no_fail_fast_on_malformed_config :
    (generateTrace demoEngine 0 0 30 1).1 ≠ [] := by
  decide

/-- C7 (amended): trace generation performs no configuration validation and
never fails fast: for every configuration — malformed or not — it runs the
frame loop and emits exactly `durationInFrames.toNat` snapshots (so a
non-positive duration yields an empty trace only because the loop body never
runs, and zero or negative dimensions or fps still generate snapshots). -/
theorem trace_generated_regardless_of_config (E : EngineModel)
    (width height fps : ℚ) (durationInFrames : ℤ) :
    (generateTrace E width height fps durationInFrames).1.length =
      durationInFrames.toNat :=
  genFrames_fst_length E (1000 / fps) durationInFrames.toNat 0
    (E.init width, emptyHandlerState)

/-- C8: the camera translation offset is computed from the snapshot's
camera-focus value (the ball's recorded position) as
`(focus.x - width / 2, focus.y - height * 0.4)`, so that subtracting the
offset puts the tracked ball at the horizontal center `width / 2` and at
40% down the viewport, `height * 0.4`. -/
theorem camera_offset_centers_ball (E : EngineModel) (s : E.State)
    (width height : ℚ) :
    cameraOffset (mkSnapshot E s) width height =
        ((E.ballPos s).1 - width / 2, (E.ballPos s).2 - height * 0.4) ∧
      (E.ballPos s).1 - (cameraOffset (mkSnapshot E s) width height).1 =
        width / 2 ∧
      (E.ballPos s).2 - (cameraOffset (mkSnapshot E s) width height).2 =
        height * 0.4 := by
  refine ⟨rfl, ?_, ?_⟩ <;> simp [cameraOffset, mkSnapshot]

/-- C9: for `v1 < v2` the synthesized bounce sound for `v2` uses a strictly
higher frequency parameter than the one for `v1`, while every sample of
either buffer carries the same velocity-independent amplitude decay factor
`bounceEnvelope` (the `exp (-8 t)` envelope mentions no velocity). -/
theorem bounce_sound_frequency_mono_envelope_fixed (P : AudioPrims)
    (v1 v2 duration sampleRate : ℚ) (h : v1 < v2) :
    bounceFrequency v1 < bounceFrequency v2 ∧
      ∀ i, synthesizeBounceSound P v1 duration sampleRate i =
          (if i < sampleCount duration sampleRate then
            bounceEnvelope P sampleRate i * bounceWave P v1 sampleRate i * 0.4
          else 0) ∧
        synthesizeBounceSound P v2 duration sampleRate i =
          (if i < sampleCount duration sampleRate then
            bounceEnvelope P sampleRate i * bounceWave P v2 sampleRate i * 0.4
          else 0) := by
  refine ⟨?_, fun i => ⟨rfl, rfl⟩⟩
  unfold bounceFrequency
  have h50 : v1 * 50 < v2 * 50 :=
    mul_lt_mul_of_pos_right h (by norm_num)
  linarith

/-- Witness for C9 at velocities 0 < 1, duration 0.3, sample rate 100. -/
theorem bounce_sound_frequency_mono_envelope_fixed_witness :
    bounceFrequency 0 < bounceFrequency 1 ∧
      synthesizeBounceSound demoPrims 0 (3 / 10) 100 5 =
        bounceEnvelope demoPrims 100 5 * bounceWave demoPrims 0 100 5 *
          0.4 := by
  have h := bounce_sound_frequency_mono_envelope_fixed demoPrims 0 1 (3 / 10)
    100 (by norm_num)
  refine ⟨h.1, ?_⟩
  rw [(h.2 5).1, if_pos (by norm_num [sampleCount])]

/-- C10: every snapshot of every generated trace has an empty per-snapshot
`collisions` list; collision events live only in the separate event list
returned alongside the trace. -/
theorem snapshot_collisions_empty (E : EngineModel) (width height fps : ℚ)
    (durationInFrames : ℤ) (s : FrameSnapshot)
    (hs : s ∈ (generateTrace E width height fps durationInFrames).1) :
    s.collisions = [] :=
  collisions_of_mem_genFrames E (1000 / fps) durationInFrames.toNat 0
    (E.init width, emptyHandlerState) s hs

/-- Witness for C10: the single snapshot of a concrete one-frame trace has
an empty collision list. -/
theorem snapshot_collisions_empty_witness :
    (⟨[], [], (2 : ℚ), 2⟩ : FrameSnapshot).collisions = [] :=
  snapshot_collisions_empty demoEngine 100 100 30 1 ⟨[], [], 2, 2⟩
    (by decide)
